import Mathlib

/-!
Verification of the converse.js MUC (multi-user chat) utilities module
(`src/headless/plugins/muc/utils.js`) against its natural-language
specification.  The JavaScript functions are shallowly embedded as pure
Lean functions: ambient configuration (`api.settings.get`) and global
state (`_converse`) become explicit parameters, collection mutation
becomes state passing over lists, emitted events and log output become
explicit traces in the result values.
-/

namespace ConverseMuc

/-- Modelled from the spec: `ROLES`, imported from
`plugins/muc/index.js` (not part of the excerpt).  The spec gives the
full role set as visitor, participant and moderator, and fixes the
order moderator-first through the expected filter result
`['participant','visitor']` for a disable-list `['moderator']`. -/
def ROLES : List String := ["moderator", "participant", "visitor"]

/-- The JavaScript value of the `modtools_disable_assign` setting: an
array of role names, or any other value, of which only its truthiness
matters (`if (!Array.isArray(disabled)) disabled = disabled ? ROLES : []`). -/
inductive DisableSetting where
  | arr (roles : List String)
  | other (truthy : Bool)
  deriving DecidableEq, Repr

/-- An occupant model, reduced to the one attribute the code reads
(`occupant.get('role')`). -/
structure Occupant where
  role : String
  deriving DecidableEq, Repr

/-- `getAssignableRoles` from `muc/utils.js`: normalize the
`modtools_disable_assign` setting (a non-array value becomes `ROLES`
when truthy and `[]` otherwise), then return the roles of `ROLES` not
in the disable-list when the occupant is a moderator, else `[]`. -/
def getAssignableRoles (modtools_disable_assign : DisableSetting)
    (occupant : Occupant) : List String :=
  let disabled : List String :=
    match modtools_disable_assign with
    | .arr roles => roles
    | .other truthy => if truthy then ROLES else []
  if occupant.role = "moderator" then
    ROLES.filter (fun r => ! disabled.contains r)
  else
    []

/-- Room session connection status, `converse.ROOMSTATUS` restricted to
the states the spec names: disconnected, connecting, connected. -/
inductive RoomStatus where
  | disconnected
  | connecting
  | connected
  deriving DecidableEq, Repr

/-- `_converse.CHATROOMS_TYPE`, the `type` attribute marking a chatbox
as a groupchat room (a constant from `core.js`, not in the excerpt). -/
def CHATROOMS_TYPE : String := "chatroom"

/-- A message stored in a room's message log, reduced to the attributes
the module reads: `msgid` (dedup key) and the activity body. -/
structure MucMessage where
  msgid : String
  body : String
  deriving DecidableEq, Repr

/-- A chatbox from the `_converse.chatboxes` collection.  `session` is
flattened into `connection_status` (the only session attribute the
module touches). -/
structure Chatbox where
  jid : String
  type : String
  password : Option String
  messages : List MucMessage
  connection_status : RoomStatus
  deriving DecidableEq, Repr

/-- `Strophe.getBareJidFromJid`: strip the resource part of a JID
(everything from the first `/` on).  External transport helper
(`converse.env`), treated by the spec as a given capability. -/
def getBareJidFromJid (jid : String) : String :=
  String.mk (jid.toList.takeWhile (fun c => c ≠ '/'))

/-- Lowercase a string character by character (JavaScript
`toLowerCase` on the ASCII JIDs involved here). -/
def lowerString (s : String) : String :=
  String.mk (s.toList.map Char.toLower)

/-- `u.isSameBareJID`: compare the lowercased bare parts of two JIDs.
External helper from `converse.env`, treated by the spec as a given
capability. -/
def isSameBareJID (a b : String) : Bool :=
  lowerString (getBareJidFromJid a) == lowerString (getBareJidFromJid b)

/-- Modelled from the spec: the Room Directory lookup backing
`api.rooms.get(jid)` (the rooms API is not part of the excerpt).  It
returns the chatbox with that JID when it is a groupchat room, and
absent otherwise. -/
def roomsGet (chatboxes : List Chatbox) (jid : String) : Option Chatbox :=
  chatboxes.find? (fun b => b.jid == jid && b.type == CHATROOMS_TYPE)

/-- Replace the chatbox carrying `jid` by `room` (the state-passing
rendering of mutating that model object inside the collection). -/
def updateRoom (chatboxes : List Chatbox) (jid : String) (room : Chatbox) :
    List Chatbox :=
  chatboxes.map (fun b => if b.jid == jid && b.type == CHATROOMS_TYPE then room else b)

/-- `disconnectChatRooms` from `muc/utils.js`: every chatbox whose type
is `CHATROOMS_TYPE` gets its session `connection_status` saved as
disconnected; every other chatbox is left as it is. -/
def disconnectChatRooms (chatboxes : List Chatbox) : List Chatbox :=
  chatboxes.map (fun m =>
    if m.type == CHATROOMS_TYPE then
      { m with connection_status := RoomStatus.disconnected }
    else m)

/-- The transport/session facts read by the unload listener that
`onStatusInitialized` installs: `api.connection.isType('websocket')`,
the `enable_smacks` setting, and `_converse.session.get('smacks_stream_id')`. -/
structure TransportState where
  using_websocket : Bool
  enable_smacks : Bool
  smacks_stream_id : Option String
  deriving DecidableEq, Repr

/-- The unload listener installed by `onStatusInitialized`: for a
websocket connection that is not resumable (stream management disabled,
or no `smacks_stream_id` token), call `disconnectChatRooms`; otherwise
do nothing. -/
def onUnload (t : TransportState) (chatboxes : List Chatbox) : List Chatbox :=
  if t.using_websocket && (!t.enable_smacks || t.smacks_stream_id.isNone) then
    disconnectChatRooms chatboxes
  else
    chatboxes

/-- An inbound message stanza as seen by the MEP (XEP-0316) path: its
`from` and `id` attributes, whether it carries a
`<event xmlns='...pubsub#event'>` child (the sizzle query in
`checkIfMEP`), and its payload, abstracted as the outcome of decoding
it: either the list of activity bodies or a decode failure. -/
structure MEPStanza where
  fromJid : String
  id : String
  hasPubsubEvent : Bool
  decodeFails : Bool
  activities : List String
  deriving DecidableEq, Repr

/-- Modelled from the spec: `getMEPActivities` (from `parsers.js`, not
in the excerpt) decodes zero-or-more activity records from the stanza
payload, each becoming message attributes that carry the stanza id as
the message id (the Message identity of the data model); a malformed
payload makes the decode fail. -/
def getMEPActivities (stanza : MEPStanza) : Except String (List MucMessage) :=
  if stanza.decodeFails then
    .error "malformed MEP payload"
  else
    .ok (stanza.activities.map (fun body => { msgid := stanza.id, body := body }))

/-- The global state read by the MEP path: the local bare JID and the
chatboxes collection. -/
structure MucState where
  bare_jid : String
  chatboxes : List Chatbox
  deriving DecidableEq, Repr

/-- What one run of `handleMEPNotification` produced: the updated
chatboxes, the `message` events triggered (room JID paired with the
created message attributes), and whether the unknown-room warning was
logged. -/
structure MEPOutcome where
  chatboxes : List Chatbox
  events : List (String × MucMessage)
  warnedUnknownRoom : Bool
  deriving DecidableEq, Repr

/-- `handleMEPNotification` from `muc/utils.js`: drop self-authored
stanzas; look the room up by the stanza's `from` attribute, warn and
drop when absent; drop when a message with the stanza's id is already
in the room's log; otherwise decode the MEP activities and, for each,
create a message in the room and trigger a `message` event.  A decode
failure propagates out of the (async) function as an error. -/
def handleMEPNotification (st : MucState) (stanza : MEPStanza) :
    Except String MEPOutcome :=
  if isSameBareJID stanza.fromJid st.bare_jid then
    .ok ⟨st.chatboxes, [], false⟩
  else
    match roomsGet st.chatboxes stanza.fromJid with
    | none => .ok ⟨st.chatboxes, [], true⟩
    | some room =>
      if room.messages.any (fun m => m.msgid == stanza.id) then
        .ok ⟨st.chatboxes, [], false⟩
      else
        match getMEPActivities stanza with
        | .error e => .error e
        | .ok attrsList =>
          let room' := { room with messages := room.messages ++ attrsList }
          .ok ⟨updateRoom st.chatboxes stanza.fromJid room',
               attrsList.map (fun attrs => (stanza.fromJid, attrs)), false⟩

/-- What one run of the `checkIfMEP` stanza handler produced.
`keepRegistered` is the boolean returned to the transport,
`caughtAndLogged` records whether the handler's own catch block ran
`log.error`, and `unhandledRejection` records a failure that escaped as
a rejected promise. -/
structure HandlerOutcome where
  chatboxes : List Chatbox
  events : List (String × MucMessage)
  keepRegistered : Bool
  caughtAndLogged : Bool
  unhandledRejection : Bool
  deriving DecidableEq, Repr

/-- `checkIfMEP` from `muc/utils.js`: when the stanza carries a pubsub
event child, run `handleMEPNotification` and return `true`.
`handleMEPNotification` is an `async function` invoked WITHOUT `await`:
by JavaScript semantics an async function never throws synchronously,
so a decode failure rejects the returned promise and bypasses the
enclosing try/catch, which can only observe synchronous throws from the
sizzle query itself (whose selector is a fixed valid one).  Hence
`caughtAndLogged` is false even on a decode failure, which surfaces as
an unhandled rejection after the handler has already returned `true`. -/
def checkIfMEP (st : MucState) (message : MEPStanza) : HandlerOutcome :=
  if message.hasPubsubEvent then
    match handleMEPNotification st message with
    | .ok out => ⟨out.chatboxes, out.events, true, false, false⟩
    | .error _ => ⟨st.chatboxes, [], true, false, true⟩
  else
    ⟨st.chatboxes, [], true, false, false⟩

/-- A stanza-handler registration passed to
`_converse.connection.addHandler`: the handler's name, the element name
and the element subtype it matches. -/
structure HandlerReg where
  handler : String
  elemName : String
  elemSubtype : Option String
  deriving DecidableEq, Repr

/-- `registerPEPPushHandler` from `muc/utils.js`: registers `checkIfMEP`
for `message` stanzas of subtype `headline`, and again for subtype
`groupchat` (the workaround for Prosody MUC MAM). -/
def registerPEPPushHandler : List HandlerReg :=
  [⟨"checkIfMEP", "message", some "headline"⟩,
   ⟨"checkIfMEP", "message", some "groupchat"⟩]

/-- What one run of the anonymous handler registered by
`onBeforeResourceBinding` produced: the bare JID whose stanza replay
was deferred until `chatBoxesFetched` (when the room is unknown), and
the boolean returned to the transport. -/
structure EarlyMUCOutcome where
  deferredReplay : Option String
  keepRegistered : Bool
  deriving DecidableEq, Repr

/-- The handler registered by `onBeforeResourceBinding` for `groupchat`
messages: when no chatbox exists yet for the sender's bare JID, defer a
replay of the stanza until the chatboxes are fetched; always return
`true`. -/
def onBeforeResourceBindingHandler (chatboxes : List Chatbox)
    (stanzaFrom : String) : EarlyMUCOutcome :=
  let muc_jid := getBareJidFromJid stanzaFrom
  if (chatboxes.find? (fun b => b.jid == muc_jid)).isSome then
    ⟨none, true⟩
  else
    ⟨some muc_jid, true⟩

/-- The settings object handed to `openChatRoom` / `api.rooms.get`,
with the fields this module reads or writes: `type` and `id` (written
by `openChatRoom`), `password` and `nick` (caller-supplied). -/
structure RoomSettings where
  type : Option String := none
  id : Option String := none
  jid : Option String := none
  password : Option String := none
  nick : Option String := none
  deriving DecidableEq, Repr

/-- Modelled from the spec: `api.rooms.get(jid, settings, true)` (the
rooms API is not in the excerpt) — the Room Directory getOrCreate:
return the existing Room for that JID, or construct one from the
caller-supplied settings, with initial session state disconnected.
Returns the room, the updated collection, and whether it was created. -/
def roomsGetOrCreate (chatboxes : List Chatbox) (jid : String)
    (settings : RoomSettings) : Chatbox × List Chatbox × Bool :=
  match roomsGet chatboxes jid with
  | some b => (b, chatboxes, false)
  | none =>
    let b : Chatbox :=
      { jid := jid
        type := settings.type.getD ""
        password := settings.password
        messages := []
        connection_status := RoomStatus.disconnected }
    (b, chatboxes ++ [b], true)

/-- The result of `openChatRoom`: the caller's settings object after
the in-place writes to its `type` and `id` fields, the chatbox
returned, the updated collection, and whether the room was created. -/
structure OpenResult where
  settings : RoomSettings
  chatbox : Chatbox
  chatboxes : List Chatbox
  created : Bool
  deriving DecidableEq, Repr

/-- `openChatRoom` from `muc/utils.js`: overwrite `settings.type` with
`CHATROOMS_TYPE` and `settings.id` with the JID (mutating the caller's
object), then get-or-create the room with those settings and show it. -/
def openChatRoom (chatboxes : List Chatbox) (jid : String)
    (settings : RoomSettings) : OpenResult :=
  let settings := { settings with type := some CHATROOMS_TYPE, id := some jid }
  let r := roomsGetOrCreate chatboxes jid settings
  ⟨settings, r.1, r.2.1, r.2.2⟩

/-- The invitation content `onDirectMUCInvitation` extracts from the
message stanza: the `from` attribute and the `jid`, `reason` and
`password` attributes of its `x[xmlns='jabber:x:conference']` child
(absent attributes are `none`; an absent or empty reason is falsy, so
an empty-string reason is modelled as `none`). -/
structure DirectInvite where
  fromJid : String
  room_jid : String
  reason : Option String
  password : Option String
  deriving DecidableEq, Repr

/-- The observable outcome of `onDirectMUCInvitation`: the updated
chatboxes, whether (and with which text) the confirm prompt was shown,
the open call that was issued (room JID and the settings passed), the
chatroom obtained by that open call, and whether `rejoin()` was called
on it. -/
structure InviteOutcome where
  chatboxes : List Chatbox
  promptText : Option String
  opened : Option (String × RoomSettings)
  chatroom : Option Chatbox
  rejoined : Bool
  deriving DecidableEq, Repr

/-- `onDirectMUCInvitation` from `muc/utils.js`: with
`auto_join_on_invite` set the invitation is accepted without any
prompt; otherwise the user is shown a confirm dialog naming the inviter
(roster display name when known, else the bare JID) and the reason when
present, and `userConfirms` is the dialog's answer.  On acceptance the
room is opened with the invitation's password and, when its session
status is disconnected, `rejoin()` is called; on decline nothing
changes. -/
def onDirectMUCInvitation (auto_join_on_invite : Bool)
    (roster : List (String × String)) (userConfirms : Bool)
    (chatboxes : List Chatbox) (message : DirectInvite) : InviteOutcome :=
  let fromBare := getBareJidFromJid message.fromJid
  let promptText : Option String :=
    if auto_join_on_invite then
      none
    else
      let contact :=
        match roster.find? (fun p => p.1 == fromBare) with
        | some p => p.2
        | none => fromBare
      match message.reason with
      | none =>
        some (contact ++ " has invited you to join a groupchat: " ++ message.room_jid)
      | some r =>
        some (contact ++ " has invited you to join a groupchat: " ++ message.room_jid
              ++ ", and left the following reason: \"" ++ r ++ "\"")
  let result := auto_join_on_invite || userConfirms
  if result then
    let passed : RoomSettings := { password := message.password }
    let res := openChatRoom chatboxes message.room_jid passed
    let rejoin := res.chatbox.connection_status == RoomStatus.disconnected
    ⟨res.chatboxes, promptText, some (message.room_jid, passed),
     some res.chatbox, rejoin⟩
  else
    ⟨chatboxes, promptText, none, none, false⟩

/-- An entry of the `auto_join_rooms` setting as a JavaScript value:
a string (groupchat JID), an object (`{jid, ...settings}`), or
anything else (e.g. the number `42`), which `isObject` rejects. -/
inductive AutoJoinEntry where
  | str (jid : String)
  | obj (jid : String) (nick : Option String)
  | other (n : Int)
  deriving DecidableEq, Repr

/-- One step of the trace `autoJoinRooms` produces: an
`api.rooms.open` call (JID plus settings, `none` for the bare
string-JID form), a `log.error` call, or the `roomsAutoJoined`
trigger. -/
inductive JoinAction where
  | openRoom (jid : String) (settings : Option RoomSettings)
  | logError
  | triggerAutoJoined
  deriving DecidableEq, Repr

/-- `autoJoinRooms` from `muc/utils.js` as the trace of its calls: for
every entry of `auto_join_rooms`, a string JID is opened unless a
chatbox with that JID already exists, an object is spread into settings
and always opened, and anything else logs an error and is skipped; the
`roomsAutoJoined` event is triggered once, after `Promise.all` over the
opens has settled. -/
def autoJoinRooms (chatboxes : List Chatbox) (auto_join_rooms : List AutoJoinEntry) :
    List JoinAction :=
  (auto_join_rooms.map (fun muc =>
    match muc with
    | .str jid =>
      if (chatboxes.filter (fun b => b.jid == jid)).length ≠ 0 then
        []
      else
        [JoinAction.openRoom jid none]
    | .obj jid nick =>
      [JoinAction.openRoom jid (some { jid := some jid, nick := nick })]
    | .other _ =>
      [JoinAction.logError])).flatten
  ++ [JoinAction.triggerAutoJoined]

/-- `Strophe.getNodeFromJid`: the part of a JID before the `@`.
External transport helper, treated by the spec as a given capability. -/
def getNodeFromJid (jid : String) : String :=
  String.mk (jid.toList.takeWhile (fun c => c ≠ '@'))

/-- `Strophe.unescapeNode`: undo XEP-0106 JID node escaping.  External
transport helper, treated by the spec as a given capability. -/
def unescapeNode (node : String) : String :=
  ((((((((((node.replace "\\20" " ").replace "\\22" "\"").replace "\\26" "&").replace
    "\\27" "\x27").replace "\\2f" "/").replace "\\3a" ":").replace "\\3c" "<").replace
    "\\3e" ">").replace "\\40" "@").replace "\\5c" "\\")

/-- The globals `getDefaultMUCNickname` reads: `_converse.xmppstatus`
(absent before `statusInitialized`; its `getNickname()` result once
present, `none` for an unset/empty nickname), `_converse.bare_jid`, and
the `muc_nickname_from_jid` setting. -/
structure NickGlobals where
  xmppstatus : Option (Option String)
  bare_jid : String
  muc_nickname_from_jid : Bool
  deriving DecidableEq, Repr

/-- `getDefaultMUCNickname` from `muc/utils.js`: throws when
`_converse.xmppstatus` is not yet initialized; otherwise returns the
status nickname when truthy, else the unescaped node of the bare JID
when `muc_nickname_from_jid` is set, else nothing.  The function only
reads the globals; it writes no state. -/
def getDefaultMUCNickname (g : NickGlobals) : Except String (Option String) :=
  match g.xmppstatus with
  | none =>
    .error "Can\x27t call _converse.getDefaultMUCNickname before the statusInitialized has been fired."
  | some nickAttr =>
    let nick := nickAttr.getD ""
    if nick ≠ "" then
      .ok (some nick)
    else if g.muc_nickname_from_jid then
      .ok (some (unescapeNode (getNodeFromJid g.bare_jid)))
    else
      .ok none

/-- The number of messages carrying `msgid` in the log of the room
registered under `jid` (0 when no such room exists). -/
def countMessagesWithId (chatboxes : List Chatbox) (jid msgid : String) : Nat :=
  match roomsGet chatboxes jid with
  | none => 0
  | some r => (r.messages.filter (fun m => m.msgid == msgid)).length

/-- A groupchat room with an empty message log, used as a concrete
MEP-ingestion scenario. -/
def c1Room : Chatbox :=
  { jid := "room@conf.example", type := CHATROOMS_TYPE, password := none
    messages := [], connection_status := RoomStatus.connected }

/-- Concrete global state for the MEP-ingestion scenario. -/
def c1St : MucState := { bare_jid := "me@example.org", chatboxes := [c1Room] }

/-- A concrete MEP notification stanza with one activity. -/
def c1Stanza : MEPStanza :=
  { fromJid := "room@conf.example", id := "mep-1", hasPubsubEvent := true
    decodeFails := false, activities := ["activity-1"] }

/-- The outcome of ingesting `c1Stanza` into `c1St` once. -/
def c1Out : MEPOutcome :=
  { chatboxes := [{ c1Room with messages := [⟨"mep-1", "activity-1"⟩] }]
    events := [("room@conf.example", ⟨"mep-1", "activity-1"⟩)]
    warnedUnknownRoom := false }

/-- A non-websocket transport with stream management disabled and no
resumption token. -/
def c2T : TransportState :=
  { using_websocket := false, enable_smacks := false, smacks_stream_id := none }

/-- A connected groupchat room, for the unload scenario. -/
def c2Room : Chatbox :=
  { jid := "room@conf.example", type := CHATROOMS_TYPE, password := none
    messages := [], connection_status := RoomStatus.connected }

/-- A websocket transport with stream management disabled. -/
def c2wT : TransportState :=
  { using_websocket := true, enable_smacks := false, smacks_stream_id := none }

/-- A connected groupchat room, for the websocket unload scenario. -/
def c2wRoomA : Chatbox :=
  { jid := "muc@conf.example", type := CHATROOMS_TYPE, password := none
    messages := [], connection_status := RoomStatus.connected }

/-- A one-on-one chatbox (not a groupchat), for the unload frame
condition. -/
def c2wRoomB : Chatbox :=
  { jid := "friend@example.org", type := "chatbox", password := none
    messages := [], connection_status := RoomStatus.connected }

/-- The auto-join list of the spec's test scenario: a string JID, an
object entry, and the invalid entry `42`. -/
def c4Entries : List AutoJoinEntry :=
  [AutoJoinEntry.str "room1@conf.example",
   AutoJoinEntry.obj "room2@conf.example" (some "x"),
   AutoJoinEntry.other 42]

/-- A concrete direct MUC invitation carrying a password. -/
def c5Msg : DirectInvite :=
  { fromJid := "inviter@example.org/desktop", room_jid := "party@conf.example"
    reason := some "come in", password := some "pw1" }

/-- A stale disconnected groupchat room matching the invitation's
target, so acceptance must trigger a rejoin. -/
def c5Boxes : List Chatbox :=
  [{ jid := "party@conf.example", type := CHATROOMS_TYPE, password := none
     messages := [], connection_status := RoomStatus.disconnected }]

/-- Concrete global state for the decode-failure scenario. -/
def c6St : MucState :=
  { bare_jid := "me@example.org"
    chatboxes := [{ jid := "room@conf.example", type := CHATROOMS_TYPE
                    password := none, messages := []
                    connection_status := RoomStatus.connected }] }

/-- A MEP stanza whose payload fails to decode. -/
def c6BadStanza : MEPStanza :=
  { fromJid := "room@conf.example", id := "bad-1", hasPubsubEvent := true
    decodeFails := true, activities := [] }

/-- Global state with no room registered for the MEP sender. -/
def c7St : MucState := { bare_jid := "me@example.org", chatboxes := [] }

/-- A MEP stanza from a room unknown to the chatboxes collection. -/
def c7Stanza : MEPStanza :=
  { fromJid := "ghost@conf.example", id := "mep-9", hasPubsubEvent := true
    decodeFails := false, activities := ["a"] }

/-- Globals before `statusInitialized`: no `xmppstatus` yet. -/
def c8G : NickGlobals :=
  { xmppstatus := none, bare_jid := "me@example.org", muc_nickname_from_jid := true }

/-- An already-open groupchat chatbox, for the auto-join duplicate
guard scenario. -/
def c9Box : Chatbox :=
  { jid := "dup@conf.example", type := CHATROOMS_TYPE, password := none
    messages := [], connection_status := RoomStatus.connected }

/-- A chatboxes collection already containing `c9Box`. -/
def c9Boxes : List Chatbox := [c9Box]

/-- C3: for every occupant whose role is not `moderator`,
`getAssignableRoles` returns the empty list; for a moderator it returns
the full role set minus the configured disable-list; a non-array truthy
disable-list is normalized to the full role set, making the result
empty; and with disable-list `['moderator']` a moderator gets
`['participant','visitor']`. -/
theorem c3_assignable_roles_policy :
    (∀ (d : DisableSetting) (o : Occupant), o.role ≠ "moderator" →
        getAssignableRoles d o = [])
    ∧ (∀ (roles : List String) (o : Occupant), o.role = "moderator" →
        ∀ r, r ∈ getAssignableRoles (DisableSetting.arr roles) o ↔
          (r ∈ ROLES ∧ r ∉ roles))
    ∧ (∀ (o : Occupant), o.role = "moderator" →
        getAssignableRoles (DisableSetting.other true) o = [])
    ∧ getAssignableRoles (DisableSetting.arr ["moderator"]) ⟨"moderator"⟩
        = ["participant", "visitor"] := by
  refine ⟨?_, ?_, ?_, by decide⟩
  · intro d o h
    simp [getAssignableRoles, h]
  · intro roles o h r
    simp [getAssignableRoles, h, List.mem_filter]
  · intro o h
    simp [getAssignableRoles, h]

/-- C3 witness: concrete instances of the quantified parts. -/
theorem c3_assignable_roles_witness :
    getAssignableRoles (DisableSetting.arr []) ⟨"participant"⟩ = []
    ∧ getAssignableRoles (DisableSetting.other true) ⟨"moderator"⟩ = [] :=
  ⟨c3_assignable_roles_policy.1 (DisableSetting.arr []) ⟨"participant"⟩ (by decide),
   c3_assignable_roles_policy.2.2.1 ⟨"moderator"⟩ rfl⟩

/-- C4: on the auto-join list
`['room1@conf.example', {jid:'room2@conf.example', nick:'x'}, 42]` with
no pre-existing chatboxes, `autoJoinRooms` opens room1 and room2, logs
an error for the entry `42` while continuing, and triggers
`roomsAutoJoined` exactly once, after all the opens. -/
theorem c4_auto_join_concrete_trace :
    autoJoinRooms [] c4Entries =
      [JoinAction.openRoom "room1@conf.example" none,
       JoinAction.openRoom "room2@conf.example"
         (some { jid := some "room2@conf.example", nick := some "x" }),
       JoinAction.logError,
       JoinAction.triggerAutoJoined]
    ∧ (autoJoinRooms [] c4Entries).count JoinAction.triggerAutoJoined = 1
    ∧ (autoJoinRooms [] c4Entries).getLast? = some JoinAction.triggerAutoJoined := by
  decide

/-- C8: calling `getDefaultMUCNickname` before `_converse.xmppstatus`
is initialized raises an error to the caller (the function otherwise
only reads the globals, so nothing else changes). -/
theorem c8_nickname_requires_status :
    ∀ g : NickGlobals, g.xmppstatus = none →
      getDefaultMUCNickname g =
        .error "Can\x27t call _converse.getDefaultMUCNickname before the statusInitialized has been fired." := by
  intro g h
  simp [getDefaultMUCNickname, h]

/-- C8 witness: the concrete pre-`statusInitialized` globals. -/
theorem c8_nickname_requires_status_witness :
    getDefaultMUCNickname c8G =
      .error "Can\x27t call _converse.getDefaultMUCNickname before the statusInitialized has been fired." :=
  c8_nickname_requires_status c8G rfl

/-- C2 counterexample: on a non-websocket transport with stream
management disabled (so no resumption token either), the unload
listener leaves a connected groupchat room untouched, refuting the
claim that `connection_status` becomes disconnected whenever resumption
is unavailable. -/
theorem c2_non_websocket_counterexample :
    c2Room.type = CHATROOMS_TYPE
    ∧ ¬ ((c2T.enable_smacks = false ∨ c2T.smacks_stream_id = none) →
        (onUnload c2T [c2Room])[0]? =
          some { c2Room with connection_status := RoomStatus.disconnected }) := by
  decide

/-- C2 amended: on page unload, when the transport is a websocket AND
the session is non-resumable (stream management disabled or no
`smacks_stream_id` token), every chatbox of groupchat type has its
`connection_status` set to disconnected and every other chatbox is left
unchanged, position by position. -/
theorem c2_unload_disconnects_groupchats (t : TransportState) (boxes : List Chatbox)
    (hw : t.using_websocket = true)
    (hr : t.enable_smacks = false ∨ t.smacks_stream_id = none) :
    (onUnload t boxes).length = boxes.length
    ∧ ∀ i : Nat, (onUnload t boxes)[i]? = (boxes[i]?).map (fun b =>
        if b.type == CHATROOMS_TYPE then
          { b with connection_status := RoomStatus.disconnected }
        else b) := by
  have hc : (t.using_websocket && (!t.enable_smacks || t.smacks_stream_id.isNone)) = true := by
    rcases hr with h | h <;> simp [hw, h]
  constructor
  · simp [onUnload, hc, disconnectChatRooms]
  · intro i
    simp [onUnload, hc, disconnectChatRooms, List.getElem?_map]

/-- C2 witness: a websocket transport without stream management, one
connected groupchat room and one one-on-one chatbox; the groupchat is
disconnected and the other chatbox stays as it was. -/
theorem c2_unload_disconnects_witness :
    (onUnload c2wT [c2wRoomA, c2wRoomB]).length = 2
    ∧ (onUnload c2wT [c2wRoomA, c2wRoomB])[0]? =
        some { c2wRoomA with connection_status := RoomStatus.disconnected }
    ∧ (onUnload c2wT [c2wRoomA, c2wRoomB])[1]? = some c2wRoomB := by
  have h := c2_unload_disconnects_groupchats c2wT [c2wRoomA, c2wRoomB] rfl (Or.inl rfl)
  refine ⟨h.1, ?_, ?_⟩
  · rw [h.2 0]; decide
  · rw [h.2 1]; decide

/-- C7: a MEP notification from a JID with no registered room is
logged and dropped: `handleMEPNotification` returns with the warning
flag and without creating a message or emitting an event, and the
surrounding `checkIfMEP` handler leaves the state untouched, returns
`true` to the transport and propagates no failure. -/
theorem c7_unknown_room_logged_and_dropped :
    ∀ (st : MucState) (stanza : MEPStanza),
      isSameBareJID stanza.fromJid st.bare_jid = false →
      roomsGet st.chatboxes stanza.fromJid = none →
      handleMEPNotification st stanza = .ok ⟨st.chatboxes, [], true⟩
      ∧ (checkIfMEP st stanza).chatboxes = st.chatboxes
      ∧ (checkIfMEP st stanza).events = []
      ∧ (checkIfMEP st stanza).keepRegistered = true
      ∧ (checkIfMEP st stanza).unhandledRejection = false := by
  intro st stanza hself hget
  have h1 : handleMEPNotification st stanza = .ok ⟨st.chatboxes, [], true⟩ := by
    simp [handleMEPNotification, hself, hget]
  refine ⟨h1, ?_, ?_, ?_, ?_⟩ <;>
    by_cases hp : stanza.hasPubsubEvent <;> simp [checkIfMEP, hp, h1]

/-- C7 witness: a MEP stanza from `ghost@conf.example` against an empty
chatboxes collection. -/
theorem c7_unknown_room_witness :
    handleMEPNotification c7St c7Stanza = .ok ⟨[], [], true⟩
    ∧ (checkIfMEP c7St c7Stanza).chatboxes = []
    ∧ (checkIfMEP c7St c7Stanza).events = []
    ∧ (checkIfMEP c7St c7Stanza).keepRegistered = true
    ∧ (checkIfMEP c7St c7Stanza).unhandledRejection = false :=
  c7_unknown_room_logged_and_dropped c7St c7Stanza (by decide) (by decide)

/-- C6: the `checkIfMEP` handler always returns `true` (so it stays
registered and later stanzas are still delivered), and so does the
early-groupchat handler from `onBeforeResourceBinding`; but at a stanza
whose MEP payload fails to decode, the failure is NOT caught and logged
by the handler's try/catch: `handleMEPNotification` is async and called
without await, so the decode failure escapes as an unhandled promise
rejection after the handler has already returned `true`. -/
theorem c6_handlers_return_true_but_decode_failure_escapes :
    (checkIfMEP c6St c6BadStanza).keepRegistered = true
    ∧ (checkIfMEP c6St c6BadStanza).caughtAndLogged = false
    ∧ (checkIfMEP c6St c6BadStanza).unhandledRejection = true
    ∧ (∀ (st : MucState) (m : MEPStanza), (checkIfMEP st m).keepRegistered = true)
    ∧ (∀ (st : MucState) (m : MEPStanza), (checkIfMEP st m).caughtAndLogged = false)
    ∧ (∀ (boxes : List Chatbox) (f : String),
        (onBeforeResourceBindingHandler boxes f).keepRegistered = true) := by
  refine ⟨by decide, by decide, by decide, ?_, ?_, ?_⟩
  · intro st m
    unfold checkIfMEP
    split
    · split <;> rfl
    · rfl
  · intro st m
    unfold checkIfMEP
    split
    · split <;> rfl
    · rfl
  · intro boxes f
    simp only [onBeforeResourceBindingHandler]
    split <;> rfl

/-- C9: in `autoJoinRooms` a string entry is skipped whenever any
chatbox with that JID already exists, while an object entry always
issues an open call with its settings, existing room or not. -/
theorem c9_duplicate_guard_only_for_strings :
    (∀ (boxes : List Chatbox) (jid : String) (b : Chatbox),
        b ∈ boxes → b.jid = jid →
        autoJoinRooms boxes [AutoJoinEntry.str jid] = [JoinAction.triggerAutoJoined])
    ∧ (∀ (boxes : List Chatbox) (jid : String) (nick : Option String),
        autoJoinRooms boxes [AutoJoinEntry.obj jid nick] =
          [JoinAction.openRoom jid (some { jid := some jid, nick := nick }),
           JoinAction.triggerAutoJoined]) := by
  constructor
  · intro boxes jid b hb hjid
    simp [autoJoinRooms]
    exact ⟨b, hb, hjid⟩
  · intro boxes jid nick
    simp [autoJoinRooms]

/-- C9 witness: with `dup@conf.example` already open, the string entry
issues no open call while the object entry still does. -/
theorem c9_duplicate_guard_witness :
    autoJoinRooms c9Boxes [AutoJoinEntry.str "dup@conf.example"] =
      [JoinAction.triggerAutoJoined]
    ∧ autoJoinRooms c9Boxes [AutoJoinEntry.obj "dup@conf.example" none] =
        [JoinAction.openRoom "dup@conf.example"
           (some { jid := some "dup@conf.example", nick := none }),
         JoinAction.triggerAutoJoined] :=
  ⟨c9_duplicate_guard_only_for_strings.1 c9Boxes "dup@conf.example" c9Box
      (by decide) rfl,
   c9_duplicate_guard_only_for_strings.2 c9Boxes "dup@conf.example" none⟩

/-- Any chatbox handed out by `openChatRoom` carries the groupchat
type: a found room passed the type filter of the directory lookup, and
a created room inherits the overwritten `type` setting. -/
theorem openChatRoom_chatbox_type (boxes : List Chatbox) (jid : String)
    (settings : RoomSettings) :
    (openChatRoom boxes jid settings).chatbox.type = CHATROOMS_TYPE := by
  cases hfind : roomsGet boxes jid with
  | none => simp [openChatRoom, roomsGetOrCreate, hfind]
  | some b =>
    have hfind' : boxes.find? (fun x => x.jid == jid && x.type == CHATROOMS_TYPE)
        = some b := hfind
    have hp := List.find?_some hfind'
    have hb : b.type = CHATROOMS_TYPE := by
      simp [Bool.and_eq_true] at hp
      exact hp.2
    simp [openChatRoom, roomsGetOrCreate, hfind, hb]

/-- C10: `openChatRoom` overwrites the caller settings' `type` with the
groupchat type and `id` with the JID (leaving the other fields alone),
and every chatbox it hands out — including the one obtained when an
invitation is accepted — has groupchat type, whatever the caller passed
in. -/
theorem c10_open_chat_room_forces_groupchat_type :
    ∀ (boxes : List Chatbox) (jid : String) (settings : RoomSettings),
      (openChatRoom boxes jid settings).settings.type = some CHATROOMS_TYPE
      ∧ (openChatRoom boxes jid settings).settings.id = some jid
      ∧ (openChatRoom boxes jid settings).settings.password = settings.password
      ∧ (openChatRoom boxes jid settings).settings.nick = settings.nick
      ∧ (openChatRoom boxes jid settings).chatbox.type = CHATROOMS_TYPE
      ∧ (∀ (auto uc : Bool) (roster : List (String × String)) (msg : DirectInvite),
          ((onDirectMUCInvitation auto roster uc boxes msg).chatroom.all
            (fun cb => cb.type == CHATROOMS_TYPE)) = true) := by
  intro boxes jid settings
  refine ⟨rfl, rfl, rfl, rfl, openChatRoom_chatbox_type boxes jid settings, ?_⟩
  intro auto uc roster msg
  by_cases hr : (auto || uc) = true
  · simp [onDirectMUCInvitation, hr, openChatRoom_chatbox_type]
  · simp [onDirectMUCInvitation, hr]

/-- C5: accepting a direct MUC invitation — unconditionally and
without a prompt when `auto_join_on_invite` is set, or after the user
confirms the prompt otherwise — opens the target room with the
invitation's password and triggers `rejoin()` exactly when that room's
session status is disconnected; declining changes no room state. -/
theorem c5_invitation_accept_rejoin :
    ∀ (auto uc : Bool) (roster : List (String × String)) (boxes : List Chatbox)
      (msg : DirectInvite),
      (auto = true →
        (onDirectMUCInvitation auto roster uc boxes msg).promptText = none
        ∧ (onDirectMUCInvitation auto roster uc boxes msg).opened
            = some (msg.room_jid, { password := msg.password }))
      ∧ (auto = false →
          ((onDirectMUCInvitation auto roster uc boxes msg).promptText).isSome = true)
      ∧ ((auto || uc) = true →
          (onDirectMUCInvitation auto roster uc boxes msg).opened
            = some (msg.room_jid, { password := msg.password })
          ∧ (onDirectMUCInvitation auto roster uc boxes msg).chatroom
              = some (openChatRoom boxes msg.room_jid { password := msg.password }).chatbox
          ∧ ((onDirectMUCInvitation auto roster uc boxes msg).rejoined = true
              ↔ (openChatRoom boxes msg.room_jid
                  { password := msg.password }).chatbox.connection_status
                  = RoomStatus.disconnected))
      ∧ (auto = false → uc = false →
          (onDirectMUCInvitation auto roster uc boxes msg).chatboxes = boxes
          ∧ (onDirectMUCInvitation auto roster uc boxes msg).opened = none
          ∧ (onDirectMUCInvitation auto roster uc boxes msg).chatroom = none
          ∧ (onDirectMUCInvitation auto roster uc boxes msg).rejoined = false) := by
  intro auto uc roster boxes msg
  refine ⟨?_, ?_, ?_, ?_⟩
  · intro ha
    subst ha
    constructor <;> simp [onDirectMUCInvitation]
  · intro ha
    subst ha
    cases uc <;> cases hre : msg.reason <;>
      simp [onDirectMUCInvitation, hre]
  · intro hr
    refine ⟨?_, ?_, ?_⟩ <;> simp [onDirectMUCInvitation, hr, beq_iff_eq]
  · intro ha hu
    subst ha
    subst hu
    refine ⟨?_, ?_, ?_, ?_⟩ <;> simp [onDirectMUCInvitation]

/-- C5 witness: a prompted acceptance against a stale disconnected
room opens it with the invitation's password and triggers a rejoin. -/
theorem c5_invitation_accept_witness :
    (onDirectMUCInvitation false [] true c5Boxes c5Msg).opened
      = some ("party@conf.example", { password := some "pw1" })
    ∧ (onDirectMUCInvitation false [] true c5Boxes c5Msg).rejoined = true := by
  have h := (c5_invitation_accept_rejoin false true [] c5Boxes c5Msg).2.2.1 (by decide)
  exact ⟨h.1, by decide⟩

/-- Replacing the room registered under `jid` by a chatbox that still
matches the directory predicate makes the lookup return the
replacement, and changes a failed lookup not at all. -/
theorem roomsGet_updateRoom (boxes : List Chatbox) (jid : String) (room' : Chatbox)
    (h' : (room'.jid == jid && room'.type == CHATROOMS_TYPE) = true) :
    roomsGet (updateRoom boxes jid room') jid
      = (roomsGet boxes jid).map (fun _ => room') := by
  induction boxes with
  | nil => rfl
  | cons b bs ih =>
    simp only [roomsGet, updateRoom, List.map] at *
    by_cases hb : (b.jid == jid && b.type == CHATROOMS_TYPE) = true
    · rw [if_pos hb,
        List.find?_cons_of_pos (p := fun x : Chatbox => x.jid == jid && x.type == CHATROOMS_TYPE) _ h',
        List.find?_cons_of_pos (p := fun x : Chatbox => x.jid == jid && x.type == CHATROOMS_TYPE) _ hb]
      rfl
    · rw [if_neg hb,
        List.find?_cons_of_neg (p := fun x : Chatbox => x.jid == jid && x.type == CHATROOMS_TYPE) _ hb,
        List.find?_cons_of_neg (p := fun x : Chatbox => x.jid == jid && x.type == CHATROOMS_TYPE) _ hb]
      exact ih

/-- C1: MEP ingestion is idempotent per room and stanza id.  When a
message with the stanza's id is already in the room's log,
`handleMEPNotification` returns without creating a message or emitting
an event; hence ingesting a (single-activity) stanza twice leaves
exactly one message with that id, the second run being a no-op — and
this covers both registrations of the handler, `headline` and
`groupchat`. -/
theorem c1_mep_ingestion_idempotent :
    (∀ (st : MucState) (stanza : MEPStanza) (room : Chatbox),
        roomsGet st.chatboxes stanza.fromJid = some room →
        room.messages.any (fun m => m.msgid == stanza.id) = true →
        handleMEPNotification st stanza = .ok ⟨st.chatboxes, [], false⟩)
    ∧ (∀ (st : MucState) (stanza : MEPStanza) (room : Chatbox) (out : MEPOutcome),
        isSameBareJID stanza.fromJid st.bare_jid = false →
        roomsGet st.chatboxes stanza.fromJid = some room →
        room.messages.any (fun m => m.msgid == stanza.id) = false →
        stanza.decodeFails = false →
        stanza.activities.length = 1 →
        handleMEPNotification st stanza = .ok out →
        handleMEPNotification ⟨st.bare_jid, out.chatboxes⟩ stanza
            = .ok ⟨out.chatboxes, [], false⟩
        ∧ countMessagesWithId out.chatboxes stanza.fromJid stanza.id = 1)
    ∧ registerPEPPushHandler =
        [⟨"checkIfMEP", "message", some "headline"⟩,
         ⟨"checkIfMEP", "message", some "groupchat"⟩] := by
  refine ⟨?_, ?_, rfl⟩
  · intro st stanza room hget hdup
    cases hself : isSameBareJID stanza.fromJid st.bare_jid with
    | true => simp [handleMEPNotification, hself]
    | false => simp [handleMEPNotification, hself, hget, hdup]
  · intro st stanza room out hself hget hfresh hdecode hlen hrun
    obtain ⟨a, ha⟩ := List.length_eq_one.mp hlen
    have hout : out = ⟨updateRoom st.chatboxes stanza.fromJid
        { room with messages := room.messages ++ [⟨stanza.id, a⟩] },
        [(stanza.fromJid, ⟨stanza.id, a⟩)], false⟩ := by
      simp only [handleMEPNotification, hself, Bool.false_eq_true, if_false, hget,
        hfresh, getMEPActivities, hdecode, ha, List.map] at hrun
      exact (Except.ok.injEq _ _ ▸ hrun).symm
    subst hout
    have hfind' : st.chatboxes.find?
        (fun x => x.jid == stanza.fromJid && x.type == CHATROOMS_TYPE) = some room := hget
    have hpred := List.find?_some hfind'
    have hroom' : ((({ room with messages := room.messages ++ [⟨stanza.id, a⟩] }
        : Chatbox)).jid == stanza.fromJid
        && (({ room with messages := room.messages ++ [⟨stanza.id, a⟩] }
        : Chatbox)).type == CHATROOMS_TYPE) = true := hpred
    have hget2 := roomsGet_updateRoom st.chatboxes stanza.fromJid _ hroom'
    rw [hget] at hget2
    have hany : (room.messages ++ [(⟨stanza.id, a⟩ : MucMessage)]).any
        (fun m => m.msgid == stanza.id) = true := by
      simp [List.any_append]
    constructor
    · simp [handleMEPNotification, hself, hget2, hany]
    · have hnil : room.messages.filter (fun m => m.msgid == stanza.id) = [] := by
        rw [List.filter_eq_nil_iff]
        intro m hm
        exact List.any_eq_false.mp hfresh m hm
      simp [countMessagesWithId, hget2, List.filter_append, hnil]

/-- C1 witness: ingesting the concrete stanza `c1Stanza` a second time
is a no-op and the room holds exactly one message with its id. -/
theorem c1_mep_ingestion_witness :
    handleMEPNotification ⟨"me@example.org", c1Out.chatboxes⟩ c1Stanza
        = .ok ⟨c1Out.chatboxes, [], false⟩
    ∧ countMessagesWithId c1Out.chatboxes "room@conf.example" "mep-1" = 1 :=
  c1_mep_ingestion_idempotent.2.1 c1St c1Stanza c1Room c1Out (by decide) (by decide)
    (by decide) (by decide) (by decide) (by rfl)

end ConverseMuc
